import Mathlib

/-!
Verification of the ClawDesk control plane core.

Shallow embedding of:
- `clawdesk/tenancy/context.py` (`TenancyContext`): the tenant lifecycle
  with its bootstrapper chain (initialize / end / run / central /
  run_for_multiple);
- `clawdesk/openclaw/client.py` (`GatewayClient`): the pending-call table
  of the RPC transport (timeout branch of `_request`, one step of
  `_read_loop`);
- `clawdesk/openclaw/provisioner.py` (`TenantProvisioner`): the
  compare-and-swap registry mutations `_add_agent_to_config` and
  `_remove_agent_from_config`.

Stateful Python objects become explicit state records; every operation
returns its result, the successor state, the list of bootstrap/revert
invocations it performed (the observable call log) and the list of
revert failures it recorded.  Exceptions become `Except` values.
-/

namespace ClawDesk

/-- Tenant record (`clawdesk/models.py`).  `TenancyContext` compares
tenants only by `id`; the remaining fields are opaque payload here. -/
structure Tenant where
  id : String
  slug : String
  name : String
deriving Repr, DecidableEq

/-- One observable invocation in the bootstrapper call log: `up n` records
a call of bootstrapper `n`'s `bootstrap`, `down n` a call of its
`revert` (logged at invocation, whether or not the call then raises,
matching the fake bootstrappers of `tests/test_context.py`). -/
inductive Event where
  | up (name : String)
  | down (name : String)
deriving Repr, DecidableEq

/-- Exceptions of the embedded Python code. -/
inductive PyErr where
  | bootstrapFailure (name : String)
  | callbackFailure (msg : String)
deriving Repr, DecidableEq

/-- A bootstrapper in the chain: its `name`, whether `bootstrap(tenant)`
succeeds, and whether `revert()` succeeds. -/
structure TenancyBootstrapper where
  name : String
  bootstrapOk : Tenant → Bool
  revertOk : Bool

/-- Mutable state of a `TenancyContext` instance (`context.py`,
`__init__`): the configured chain, the current tenant, the initialized
flag and the stack of successfully bootstrapped entries, in application
order. -/
structure TenancyContext where
  bootstrappers : List TenancyBootstrapper
  tenant : Option Tenant
  initialized : Bool
  initializedBootstrappers : List TenancyBootstrapper

/-- A freshly constructed `TenancyContext(bootstrappers)`. -/
def TenancyContext.create (boots : List TenancyBootstrapper) : TenancyContext :=
  ⟨boots, none, false, []⟩

/-- Outcome of one lifecycle operation: its Python return/raise value, the
state left behind, the bootstrap/revert call log, and the names whose
`revert` failure was recorded by `logger.exception`. -/
structure OpResult (α : Type) where
  result : Except PyErr α
  state : TenancyContext
  events : List Event
  reported : List String

/-- Body of `_revert_initialized` on an already reversed stack: revert
each entry in the order given; a failing `revert` is recorded and
skipped, never stopping the iteration. -/
def revertRun : List TenancyBootstrapper → List Event × List String
  | [] => ([], [])
  | b :: rest =>
      let (l, r) := revertRun rest
      (Event.down b.name :: l, if b.revertOk then r else b.name :: r)

/-- `TenancyContext._revert_initialized`: iterate
`reversed(self._initialized_bootstrappers)`. -/
def revertInitialized (stack : List TenancyBootstrapper) : List Event × List String :=
  revertRun stack.reverse

/-- `self._tenant and self._tenant.id == tenant.id` (a `Tenant` object is
always truthy). -/
def sameTenant (cur : Option Tenant) (t : Tenant) : Bool :=
  match cur with
  | some p => p.id == t.id
  | none => false

/-- `TenancyContext.end`: no-op unless initialized, otherwise revert the
stack in reverse order and clear all state.  Never raises. -/
def TenancyContext.endTenancy (s : TenancyContext) : OpResult Unit :=
  if s.initialized then
    let (l, r) := revertInitialized s.initializedBootstrappers
    ⟨.ok (), ⟨s.bootstrappers, none, false, []⟩, l, r⟩
  else ⟨.ok (), s, [], []⟩

/-- The `for bootstrapper in self._bootstrappers` loop of `initialize`:
run each `bootstrap(tenant)` in order, appending successes to the stack;
on the first failure revert the stack built so far and re-raise.
Returns the raised value (if any), the final `_initialized_bootstrappers`
(not cleared on failure, exactly as in the source), the call log and the
recorded revert failures. -/
def bootstrapLoop (t : Tenant) (stack : List TenancyBootstrapper) :
    List TenancyBootstrapper →
      Except PyErr Unit × List TenancyBootstrapper × List Event × List String
  | [] => (.ok (), stack, [], [])
  | b :: rest =>
      if b.bootstrapOk t then
        let (res, st, l, r) := bootstrapLoop t (stack ++ [b]) rest
        (res, st, Event.up b.name :: l, r)
      else
        let (l, r) := revertInitialized stack
        (.error (.bootstrapFailure b.name), stack, Event.up b.name :: l, r)

/-- `TenancyContext.initialize(tenant)` (renamed here): no-op when already initialized
for the same tenant id; otherwise end a previous tenancy, set the tenant,
clear the stack, and run the bootstrapper loop.  On loop failure the
tenant and flag are cleared and the failure re-raised (note
`self._bootstrappers` is never reassigned, so the loop below iterates the
original chain). -/
def TenancyContext.initTenancy (s : TenancyContext) (t : Tenant) : OpResult Unit :=
  if s.initialized && sameTenant s.tenant t then
    ⟨.ok (), s, [], []⟩
  else
    let e := if s.initialized then s.endTenancy else ⟨.ok (), s, [], []⟩
    match bootstrapLoop t [] s.bootstrappers with
    | (.ok _, st, l, r) =>
        ⟨.ok (), ⟨s.bootstrappers, some t, true, st⟩, e.events ++ l, e.reported ++ r⟩
    | (.error err, st, l, r) =>
        ⟨.error err, ⟨s.bootstrappers, none, false, st⟩, e.events ++ l, e.reported ++ r⟩

/-- `TenancyContext.run(tenant, callback)`: record the previous tenant,
initialize, run the callback, and in a `finally` block re-initialize the
previous tenant (if any) or end.  A failure raised inside the `finally`
replaces an in-flight failure, per Python semantics. -/
def TenancyContext.run {α : Type} (s : TenancyContext) (t : Tenant)
    (cb : Tenant → Except PyErr α) : OpResult α :=
  let prev := s.tenant
  let i := s.initTenancy t
  let tryRes : Except PyErr α :=
    match i.result with
    | .ok _ => cb t
    | .error e => .error e
  let fin : OpResult Unit :=
    match prev with
    | some p => i.state.initTenancy p
    | none => i.state.endTenancy
  ⟨match fin.result with
    | .error e => .error e
    | .ok _ => tryRes,
   fin.state, i.events ++ fin.events, i.reported ++ fin.reported⟩

/-- `TenancyContext.central(callback)`: end the current tenancy, call the
callback with the previous tenant, then re-initialize that tenant if one
existed.  There is no `finally`: a callback failure propagates before any
re-initialization happens. -/
def TenancyContext.central {α : Type} (s : TenancyContext)
    (cb : Option Tenant → Except PyErr α) : OpResult α :=
  let prev := s.tenant
  let e := s.endTenancy
  match cb prev with
  | .error err => ⟨.error err, e.state, e.events, e.reported⟩
  | .ok v =>
      match prev with
      | some p =>
          let i := e.state.initTenancy p
          ⟨match i.result with
            | .error err => .error err
            | .ok _ => .ok v,
           i.state, e.events ++ i.events, e.reported ++ i.reported⟩
      | none => ⟨.ok v, e.state, e.events, e.reported⟩

/-- The `for tenant in tenants` loop of `run_for_multiple`: initialize
then call back, for each tenant in order; any failure aborts the loop
and propagates (the source has no `try` here). -/
def runForMultipleLoop (cb : Tenant → Except PyErr Unit) :
    TenancyContext → List Tenant → OpResult Unit
  | s, [] => ⟨.ok (), s, [], []⟩
  | s, t :: rest =>
      let i := s.initTenancy t
      match i.result with
      | .error e => ⟨.error e, i.state, i.events, i.reported⟩
      | .ok _ =>
          match cb t with
          | .error e => ⟨.error e, i.state, i.events, i.reported⟩
          | .ok _ =>
              let k := runForMultipleLoop cb i.state rest
              ⟨k.result, k.state, i.events ++ k.events, i.reported ++ k.reported⟩

/-- `TenancyContext.run_for_multiple(tenants, callback)`: run the loop,
then restore the tenant that was current before the call (or end). -/
def TenancyContext.runForMultiple (s : TenancyContext) (ts : List Tenant)
    (cb : Tenant → Except PyErr Unit) : OpResult Unit :=
  let orig := s.tenant
  let loop := runForMultipleLoop cb s ts
  match loop.result with
  | .error e => ⟨.error e, loop.state, loop.events, loop.reported⟩
  | .ok _ =>
      let fin : OpResult Unit :=
        match orig with
        | some p => loop.state.initTenancy p
        | none => loop.state.endTenancy
      ⟨fin.result, fin.state, loop.events ++ fin.events, loop.reported ++ fin.reported⟩

/-! ### Basic lemmas about the bootstrapper chain -/

theorem revertRun_events (l : List TenancyBootstrapper) :
    (revertRun l).1 = l.map (fun b => Event.down b.name) := by
  induction l with
  | nil => rfl
  | cons b rest ih => simp [revertRun, ih]

theorem revertRun_reported (l : List TenancyBootstrapper) :
    (revertRun l).2 = (l.filter (fun b => !b.revertOk)).map (fun b => b.name) := by
  induction l with
  | nil => rfl
  | cons b rest ih =>
      by_cases h : b.revertOk <;> simp [revertRun, ih, h, List.filter]

theorem bootstrapLoop_all_ok (t : Tenant) (rest : List TenancyBootstrapper)
    (h : ∀ b ∈ rest, b.bootstrapOk t = true) (stack : List TenancyBootstrapper) :
    bootstrapLoop t stack rest =
      (.ok (), stack ++ rest, rest.map (fun b => Event.up b.name), []) := by
  induction rest generalizing stack with
  | nil => simp [bootstrapLoop]
  | cons b rs ih =>
      have hb : b.bootstrapOk t = true := h b (by simp)
      have hrs : ∀ x ∈ rs, x.bootstrapOk t = true := fun x hx => h x (by simp [hx])
      simp [bootstrapLoop, hb, ih hrs]

theorem bootstrapLoop_fails (t : Tenant) (pre : List TenancyBootstrapper)
    (bk : TenancyBootstrapper) (post : List TenancyBootstrapper)
    (hpre : ∀ b ∈ pre, b.bootstrapOk t = true) (hk : bk.bootstrapOk t = false)
    (stack : List TenancyBootstrapper) :
    bootstrapLoop t stack (pre ++ bk :: post) =
      (.error (.bootstrapFailure bk.name), stack ++ pre,
       pre.map (fun b => Event.up b.name) ++
         Event.up bk.name :: (revertInitialized (stack ++ pre)).1,
       (revertInitialized (stack ++ pre)).2) := by
  induction pre generalizing stack with
  | nil => simp [bootstrapLoop, hk]
  | cons b rs ih =>
      have hb : b.bootstrapOk t = true := hpre b (by simp)
      have hrs : ∀ x ∈ rs, x.bootstrapOk t = true := fun x hx => hpre x (by simp [hx])
      simp [bootstrapLoop, hb, ih hrs (stack ++ [b])]

theorem bootstrapLoop_ok_stack (t : Tenant) (rest : List TenancyBootstrapper)
    (stack : List TenancyBootstrapper)
    (h : (bootstrapLoop t stack rest).1 = .ok ()) :
    (bootstrapLoop t stack rest).2.1 = stack ++ rest := by
  induction rest generalizing stack with
  | nil => simp [bootstrapLoop]
  | cons b rs ih =>
      by_cases hb : b.bootstrapOk t
      · have := ih (stack ++ [b])
        simp [bootstrapLoop, hb] at h ⊢
        simpa using this h
      · simp [bootstrapLoop, hb] at h

/-! ### Sample inputs used by the witness theorems -/

def tAcme : Tenant := ⟨"t1", "acme", "Acme Corp"⟩

def tGlobex : Tenant := ⟨"t2", "globex", "Globex"⟩

def okBoot (n : String) : TenancyBootstrapper := ⟨n, fun _ => true, true⟩

def failBoot (n : String) : TenancyBootstrapper := ⟨n, fun _ => false, true⟩

def badRevertBoot (n : String) : TenancyBootstrapper := ⟨n, fun _ => true, false⟩

def demoChain : List TenancyBootstrapper := [okBoot "A", okBoot "B", okBoot "C"]

/-! ### C1 -/

/-- C1: for any chain whose bootstraps all succeed, `initialize(tenant)`
followed by `end()` succeeds and produces the call log consisting of a
bootstrap of each bootstrapper in configured order followed by a revert
of each in exact reverse order. -/
theorem initialize_then_end_log (boots : List TenancyBootstrapper) (t : Tenant)
    (hb : ∀ b ∈ boots, b.bootstrapOk t = true) :
    ((TenancyContext.create boots).initTenancy t).result = .ok () ∧
    ((TenancyContext.create boots).initTenancy t).events ++
        (((TenancyContext.create boots).initTenancy t).state.endTenancy).events =
      boots.map (fun b => Event.up b.name) ++
        boots.reverse.map (fun b => Event.down b.name) := by
  simp [TenancyContext.create, TenancyContext.initTenancy, sameTenant,
    bootstrapLoop_all_ok t boots hb, TenancyContext.endTenancy,
    revertInitialized, revertRun_events]

/-- Witness for C1 at the three-bootstrapper chain A, B, C. -/
theorem initialize_then_end_log_witness :
    (∀ b ∈ demoChain, b.bootstrapOk tAcme = true) ∧
    (((TenancyContext.create demoChain).initTenancy tAcme).result = .ok () ∧
     ((TenancyContext.create demoChain).initTenancy tAcme).events ++
         (((TenancyContext.create demoChain).initTenancy tAcme).state.endTenancy).events =
       demoChain.map (fun b => Event.up b.name) ++
         demoChain.reverse.map (fun b => Event.down b.name)) :=
  ⟨by simp [demoChain, okBoot],
   initialize_then_end_log demoChain tAcme (by simp [demoChain, okBoot])⟩

/-! ### C2 -/

/-- C2: if the bootstrappers before `bk` all succeed and `bk`'s bootstrap
fails, `initialize` from a fresh context re-raises the failure, leaves
the context with no tenant and not initialized, and its call log shows
each earlier bootstrapper bootstrapped once, `bk` bootstrapped once, and
exactly the earlier ones reverted in reverse order (later bootstrappers
are never invoked). -/
theorem initialize_partial_failure (pre post : List TenancyBootstrapper)
    (bk : TenancyBootstrapper) (t : Tenant)
    (hpre : ∀ b ∈ pre, b.bootstrapOk t = true) (hk : bk.bootstrapOk t = false) :
    ((TenancyContext.create (pre ++ bk :: post)).initTenancy t).result =
      .error (.bootstrapFailure bk.name) ∧
    ((TenancyContext.create (pre ++ bk :: post)).initTenancy t).state.tenant = none ∧
    ((TenancyContext.create (pre ++ bk :: post)).initTenancy t).state.initialized = false ∧
    ((TenancyContext.create (pre ++ bk :: post)).initTenancy t).events =
      pre.map (fun b => Event.up b.name) ++
        Event.up bk.name :: pre.reverse.map (fun b => Event.down b.name) := by
  simp [TenancyContext.create, TenancyContext.initTenancy, sameTenant,
    bootstrapLoop_fails t pre bk post hpre hk, revertInitialized, revertRun_events]

/-- Witness for C2: chain A, B, C(fails), D. -/
theorem initialize_partial_failure_witness :
    (∀ b ∈ [okBoot "A", okBoot "B"], b.bootstrapOk tAcme = true) ∧
    (failBoot "C").bootstrapOk tAcme = false ∧
    (((TenancyContext.create
          ([okBoot "A", okBoot "B"] ++ failBoot "C" :: [okBoot "D"])).initTenancy tAcme).result =
        .error (.bootstrapFailure (failBoot "C").name) ∧
     ((TenancyContext.create
          ([okBoot "A", okBoot "B"] ++ failBoot "C" :: [okBoot "D"])).initTenancy tAcme).state.tenant =
        none ∧
     ((TenancyContext.create
          ([okBoot "A", okBoot "B"] ++ failBoot "C" :: [okBoot "D"])).initTenancy tAcme).state.initialized =
        false ∧
     ((TenancyContext.create
          ([okBoot "A", okBoot "B"] ++ failBoot "C" :: [okBoot "D"])).initTenancy tAcme).events =
       [okBoot "A", okBoot "B"].map (fun b => Event.up b.name) ++
         Event.up (failBoot "C").name ::
           [okBoot "A", okBoot "B"].reverse.map (fun b => Event.down b.name)) :=
  ⟨by simp [okBoot], rfl,
   initialize_partial_failure [okBoot "A", okBoot "B"] [okBoot "D"] (failBoot "C") tAcme
     (by simp [okBoot]) rfl⟩

/-! ### C8 -/

/-- C8: `initialize` on a context already Active for a tenant with the
same id is a no-op (no bootstrap or revert invoked, state unchanged),
and consequently two consecutive `initialize` calls with the same tenant
from a fresh context perform the bootstrap sequence exactly once. -/
theorem initialize_same_tenant_noop (boots : List TenancyBootstrapper) (t : Tenant)
    (hb : ∀ b ∈ boots, b.bootstrapOk t = true) :
    (∀ (s : TenancyContext) (p : Tenant), s.initialized = true → s.tenant = some p →
        p.id = t.id →
        (s.initTenancy t).result = .ok () ∧ (s.initTenancy t).state = s ∧
        (s.initTenancy t).events = [] ∧ (s.initTenancy t).reported = []) ∧
    (((TenancyContext.create boots).initTenancy t).state.initTenancy t).state =
        ((TenancyContext.create boots).initTenancy t).state ∧
    ((TenancyContext.create boots).initTenancy t).events ++
        (((TenancyContext.create boots).initTenancy t).state.initTenancy t).events =
      boots.map (fun b => Event.up b.name) := by
  refine ⟨?_, ?_, ?_⟩
  · intro s p hin htn hid
    simp [TenancyContext.initTenancy, sameTenant, hin, htn, hid]
  · simp [TenancyContext.create, TenancyContext.initTenancy, sameTenant,
      bootstrapLoop_all_ok t boots hb]
  · simp [TenancyContext.create, TenancyContext.initTenancy, sameTenant,
      bootstrapLoop_all_ok t boots hb]

/-- Witness for C8 at the chain A, B, C. -/
theorem initialize_same_tenant_noop_witness :
    (∀ b ∈ demoChain, b.bootstrapOk tAcme = true) ∧
    ((((TenancyContext.create demoChain).initTenancy tAcme).state.initTenancy tAcme).state =
        ((TenancyContext.create demoChain).initTenancy tAcme).state ∧
     ((TenancyContext.create demoChain).initTenancy tAcme).events ++
         (((TenancyContext.create demoChain).initTenancy tAcme).state.initTenancy tAcme).events =
       demoChain.map (fun b => Event.up b.name)) :=
  ⟨by simp [demoChain, okBoot],
   (initialize_same_tenant_noop demoChain tAcme (by simp [demoChain, okBoot])).2⟩

/-! ### C5 -/

/-- The same bootstrapper with its `revert` forced to succeed. -/
def TenancyBootstrapper.forceRevertOk (b : TenancyBootstrapper) : TenancyBootstrapper :=
  { b with revertOk := true }

/-- The same context with every `revert` (in the chain and on the stack)
forced to succeed. -/
def TenancyContext.forceRevertOk (s : TenancyContext) : TenancyContext :=
  { s with
    bootstrappers := s.bootstrappers.map TenancyBootstrapper.forceRevertOk,
    initializedBootstrappers :=
      s.initializedBootstrappers.map TenancyBootstrapper.forceRevertOk }

theorem bootstrapLoop_result_force (t : Tenant) (rest : List TenancyBootstrapper)
    (stack₁ stack₂ : List TenancyBootstrapper) :
    (bootstrapLoop t stack₁ (rest.map TenancyBootstrapper.forceRevertOk)).1 =
      (bootstrapLoop t stack₂ rest).1 := by
  induction rest generalizing stack₁ stack₂ with
  | nil => rfl
  | cons b rs ih =>
      by_cases hb : b.bootstrapOk t
      · simp only [List.map_cons, bootstrapLoop, TenancyBootstrapper.forceRevertOk, hb,
          if_true]
        exact ih _ _
      · simp [bootstrapLoop, TenancyBootstrapper.forceRevertOk, hb]

theorem initialize_result_force (s : TenancyContext) (t : Tenant) :
    ((s.forceRevertOk).initTenancy t).result = (s.initTenancy t).result := by
  have hres : (bootstrapLoop t [] (s.bootstrappers.map TenancyBootstrapper.forceRevertOk)).1 =
      (bootstrapLoop t [] s.bootstrappers).1 :=
    bootstrapLoop_result_force t s.bootstrappers [] []
  by_cases hg : (s.initialized && sameTenant s.tenant t) = true
  · simp [TenancyContext.initTenancy, TenancyContext.forceRevertOk, hg]
  · rcases h1 : bootstrapLoop t [] (s.bootstrappers.map TenancyBootstrapper.forceRevertOk) with
      ⟨res1, st1, l1, r1⟩
    rcases h2 : bootstrapLoop t [] s.bootstrappers with ⟨res2, st2, l2, r2⟩
    rw [h1, h2] at hres
    simp only at hres
    subst hres
    cases res1 with
    | ok v => simp [TenancyContext.initTenancy, TenancyContext.forceRevertOk, hg, h1, h2]
    | error e => simp [TenancyContext.initTenancy, TenancyContext.forceRevertOk, hg, h1, h2]

/-- C5: during any rollback, a failing `revert` is isolated: the reverse
iteration still invokes `revert` on every stack entry in exact reverse
order, the failing bootstrapper's name is recorded, the outcome of
`initialize` (including the re-raised bootstrap failure) is unchanged by
whether reverts fail, and `end` always returns normally. -/
theorem revert_failure_isolated (stack : List TenancyBootstrapper)
    (b : TenancyBootstrapper) (hb : b ∈ stack) (hr : b.revertOk = false)
    (s : TenancyContext) (t : Tenant) :
    (revertInitialized stack).1 = stack.reverse.map (fun x => Event.down x.name) ∧
    b.name ∈ (revertInitialized stack).2 ∧
    ((s.forceRevertOk).initTenancy t).result = (s.initTenancy t).result ∧
    (s.endTenancy).result = .ok () := by
  refine ⟨?_, ?_, initialize_result_force s t, ?_⟩
  · simp [revertInitialized, revertRun_events]
  · simp only [revertInitialized, revertRun_reported]
    refine List.mem_map.mpr ⟨b, ?_, rfl⟩
    refine List.mem_filter.mpr ⟨List.mem_reverse.mpr hb, ?_⟩
    simp [hr]
  · unfold TenancyContext.endTenancy
    by_cases hi : s.initialized <;> simp [hi]

/-- Witness for C5: stack A, B where B's revert fails. -/
theorem revert_failure_isolated_witness :
    badRevertBoot "B" ∈ [okBoot "A", badRevertBoot "B"] ∧
    (badRevertBoot "B").revertOk = false ∧
    ((revertInitialized [okBoot "A", badRevertBoot "B"]).1 =
        [okBoot "A", badRevertBoot "B"].reverse.map (fun x => Event.down x.name) ∧
     (badRevertBoot "B").name ∈ (revertInitialized [okBoot "A", badRevertBoot "B"]).2 ∧
     (((TenancyContext.create [badRevertBoot "B", failBoot "C"]).forceRevertOk).initTenancy tAcme).result =
        ((TenancyContext.create [badRevertBoot "B", failBoot "C"]).initTenancy tAcme).result ∧
     ((TenancyContext.create [badRevertBoot "B", failBoot "C"]).endTenancy).result = .ok ()) :=
  ⟨by simp, rfl,
   revert_failure_isolated [okBoot "A", badRevertBoot "B"] (badRevertBoot "B")
     (by simp) rfl (TenancyContext.create [badRevertBoot "B", failBoot "C"]) tAcme⟩

/-! ### C9 -/

/-- The spec's ContextState invariant: the initialized flag holds exactly
when a current tenant is set and the stack equals the full configured
chain (the prefix that completed bootstrap without error on success is
the whole chain). -/
def TenancyContext.Inv (s : TenancyContext) : Prop :=
  s.initialized = true ↔
    (s.tenant.isSome ∧ s.initializedBootstrappers = s.bootstrappers)

theorem inv_endTenancy (s : TenancyContext) (h : s.Inv) : (s.endTenancy).state.Inv := by
  unfold TenancyContext.endTenancy
  by_cases hi : s.initialized
  · simp [hi, TenancyContext.Inv]
  · simpa [hi] using h

theorem inv_initTenancy (s : TenancyContext) (t : Tenant) (h : s.Inv) :
    (s.initTenancy t).state.Inv := by
  by_cases hg : (s.initialized && sameTenant s.tenant t) = true
  · simpa [TenancyContext.initTenancy, hg] using h
  · rcases hB : bootstrapLoop t [] s.bootstrappers with ⟨res, st, l, r⟩
    cases res with
    | ok v =>
        have hst : st = s.bootstrappers := by
          have h1 : (bootstrapLoop t [] s.bootstrappers).1 = .ok () := by simp [hB]
          have h2 := bootstrapLoop_ok_stack t s.bootstrappers [] h1
          rw [hB] at h2
          simpa using h2
        simp [TenancyContext.initTenancy, hg, hB, TenancyContext.Inv, hst]
    | error e =>
        simp [TenancyContext.initTenancy, hg, hB, TenancyContext.Inv]

theorem inv_run {α : Type} (s : TenancyContext) (t : Tenant)
    (cb : Tenant → Except PyErr α) (h : s.Inv) : (s.run t cb).state.Inv := by
  unfold TenancyContext.run
  cases hp : s.tenant with
  | none => simpa [hp] using inv_endTenancy _ (inv_initTenancy s t h)
  | some p => simpa [hp] using inv_initTenancy _ p (inv_initTenancy s t h)

theorem inv_central {α : Type} (s : TenancyContext)
    (cb : Option Tenant → Except PyErr α) (h : s.Inv) : (s.central cb).state.Inv := by
  unfold TenancyContext.central
  cases hp : s.tenant with
  | none => cases hc : cb none <;> simp [hp, hc, inv_endTenancy _ h]
  | some p =>
      cases hc : cb (some p) with
      | error e => simpa [hp, hc] using inv_endTenancy _ h
      | ok v => simpa [hp, hc] using inv_initTenancy _ p (inv_endTenancy _ h)

theorem inv_runForMultipleLoop (cb : Tenant → Except PyErr Unit) (ts : List Tenant)
    (s : TenancyContext) (h : s.Inv) : (runForMultipleLoop cb s ts).state.Inv := by
  induction ts generalizing s with
  | nil => simpa [runForMultipleLoop] using h
  | cons t rest ih =>
      unfold runForMultipleLoop
      rcases hi : (s.initTenancy t).result with e | v
      · simpa [hi] using inv_initTenancy s t h
      · cases hc : cb t with
        | error e => simp [hi, hc]; exact inv_initTenancy s t h
        | ok u => simpa [hi, hc] using ih _ (inv_initTenancy s t h)

theorem inv_runForMultiple (s : TenancyContext) (ts : List Tenant)
    (cb : Tenant → Except PyErr Unit) (h : s.Inv) :
    (s.runForMultiple ts cb).state.Inv := by
  unfold TenancyContext.runForMultiple
  rcases hl : (runForMultipleLoop cb s ts).result with e | v
  · simpa [hl] using inv_runForMultipleLoop cb ts s h
  · cases hp : s.tenant with
    | none => simpa [hl, hp] using inv_endTenancy _ (inv_runForMultipleLoop cb ts s h)
    | some p => simpa [hl, hp] using inv_initTenancy _ p (inv_runForMultipleLoop cb ts s h)

/-- C9: every public lifecycle operation, returning normally or raising,
preserves the state invariant relating the initialized flag, the current
tenant and the stack of successfully bootstrapped entries. -/
theorem lifecycle_preserves_invariant (s : TenancyContext) (t : Tenant)
    (ts : List Tenant) (cb : Tenant → Except PyErr Unit)
    (cc : Option Tenant → Except PyErr Unit) (h : s.Inv) :
    (s.initTenancy t).state.Inv ∧ (s.endTenancy).state.Inv ∧
    (s.run t cb).state.Inv ∧ (s.central cc).state.Inv ∧
    (s.runForMultiple ts cb).state.Inv :=
  ⟨inv_initTenancy s t h, inv_endTenancy s h, inv_run s t cb h,
   inv_central s cc h, inv_runForMultiple s ts cb h⟩

/-- Witness for C9 at a fresh context with chain A, B(fails), callbacks
that raise, so both the raising and the normal paths are exercised. -/
theorem lifecycle_preserves_invariant_witness :
    (TenancyContext.create [okBoot "A", failBoot "B"]).Inv ∧
    (((TenancyContext.create [okBoot "A", failBoot "B"]).initTenancy tAcme).state.Inv ∧
     ((TenancyContext.create [okBoot "A", failBoot "B"]).endTenancy).state.Inv ∧
     ((TenancyContext.create [okBoot "A", failBoot "B"]).run tAcme
         (fun _ => (.error (.callbackFailure "boom") : Except PyErr Unit))).state.Inv ∧
     ((TenancyContext.create [okBoot "A", failBoot "B"]).central
         (fun _ => (.error (.callbackFailure "boom") : Except PyErr Unit))).state.Inv ∧
     ((TenancyContext.create [okBoot "A", failBoot "B"]).runForMultiple [tAcme, tGlobex]
         (fun _ => (.error (.callbackFailure "boom") : Except PyErr Unit))).state.Inv) :=
  ⟨by simp [TenancyContext.Inv, TenancyContext.create],
   lifecycle_preserves_invariant (TenancyContext.create [okBoot "A", failBoot "B"]) tAcme
     [tAcme, tGlobex] (fun _ => .error (.callbackFailure "boom"))
     (fun _ => .error (.callbackFailure "boom"))
     (by simp [TenancyContext.Inv, TenancyContext.create])⟩

/-! ### C3 -/

theorem initialize_all_ok (s : TenancyContext) (t : Tenant)
    (hb : ∀ b ∈ s.bootstrappers, b.bootstrapOk t = true) :
    (s.initTenancy t).result = .ok () ∧
    (s.initTenancy t).state.initialized = true ∧
    ((s.initTenancy t).state.tenant).map Tenant.id = some t.id ∧
    (s.initTenancy t).state.bootstrappers = s.bootstrappers := by
  by_cases hg : (s.initialized && sameTenant s.tenant t) = true
  · obtain ⟨hi, hst⟩ := Bool.and_eq_true _ _ |>.mp hg
    cases hp : s.tenant with
    | none => rw [hp] at hst; simp [sameTenant] at hst
    | some p =>
        rw [hp] at hst
        have hid : p.id = t.id := by simpa [sameTenant] using hst
        simp [TenancyContext.initTenancy, hi, hst, hp, hid]
  · simp [TenancyContext.initTenancy, hg, bootstrapLoop_all_ok t s.bootstrappers hb]

theorem initialize_fresh_ok (s : TenancyContext) (t : Tenant)
    (h0 : s.initialized = false) (hb : ∀ b ∈ s.bootstrappers, b.bootstrapOk t = true) :
    s.initTenancy t =
      ⟨.ok (), ⟨s.bootstrappers, some t, true, s.bootstrappers⟩,
       s.bootstrappers.map (fun b => Event.up b.name), []⟩ := by
  simp [TenancyContext.initTenancy, h0, bootstrapLoop_all_ok t s.bootstrappers hb]

/-- C3: from any starting context, provided every configured bootstrap
succeeds, `run(tenant, callback)` returns exactly the callback's outcome
(normal value or raised failure) and restores the prior context: the
tenant active afterwards has the previously active tenant's id (or none),
with the initialized flag matching. -/
theorem run_restores_previous {α : Type} (s : TenancyContext) (t : Tenant)
    (cb : Tenant → Except PyErr α)
    (hb : ∀ b ∈ s.bootstrappers, ∀ u, b.bootstrapOk u = true) :
    (s.run t cb).result = cb t ∧
    ((s.run t cb).state.tenant).map Tenant.id = s.tenant.map Tenant.id ∧
    (s.run t cb).state.initialized = s.tenant.isSome := by
  obtain ⟨hr, hin, hid, hbs⟩ := initialize_all_ok s t (fun b h => hb b h t)
  cases hp : s.tenant with
  | none =>
      have hfin : ((s.initTenancy t).state.endTenancy).result = .ok () ∧
          ((s.initTenancy t).state.endTenancy).state.tenant = none ∧
          ((s.initTenancy t).state.endTenancy).state.initialized = false := by
        unfold TenancyContext.endTenancy
        simp [hin]
      refine ⟨?_, ?_, ?_⟩ <;>
        simp [TenancyContext.run, hp, hr, hfin.1, hfin.2.1, hfin.2.2]
  | some p =>
      have hbp : ∀ b ∈ (s.initTenancy t).state.bootstrappers, b.bootstrapOk p = true := by
        rw [hbs]; exact fun b h => hb b h p
      obtain ⟨hr2, hin2, hid2, _⟩ := initialize_all_ok (s.initTenancy t).state p hbp
      refine ⟨?_, ?_, ?_⟩ <;> simp [TenancyContext.run, hp, hr, hr2, hid2, hin2]

/-- Witness for C3: a context already Active for Globex runs a raising
callback for Acme; Globex's id is active again afterwards. -/
theorem run_restores_previous_witness :
    (∀ b ∈ (TenancyContext.mk demoChain (some tGlobex) true demoChain).bootstrappers,
        ∀ u, b.bootstrapOk u = true) ∧
    (((TenancyContext.mk demoChain (some tGlobex) true demoChain).run tAcme
         (fun _ => (.error (.callbackFailure "boom") : Except PyErr Nat))).result =
        .error (.callbackFailure "boom") ∧
     (((TenancyContext.mk demoChain (some tGlobex) true demoChain).run tAcme
         (fun _ => (.error (.callbackFailure "boom") : Except PyErr Nat))).state.tenant).map
        Tenant.id = some tGlobex.id ∧
     ((TenancyContext.mk demoChain (some tGlobex) true demoChain).run tAcme
         (fun _ => (.error (.callbackFailure "boom") : Except PyErr Nat))).state.initialized =
        true) :=
  ⟨by simp [demoChain, okBoot],
   run_restores_previous (TenancyContext.mk demoChain (some tGlobex) true demoChain) tAcme
     (fun _ => (.error (.callbackFailure "boom") : Except PyErr Nat))
     (by simp [demoChain, okBoot])⟩

/-! ### C10 -/

/-- C10: when the context is Active for `p`, a raising callback makes
`central` propagate the failure and leave the context with no tenant
(the previous tenant is not re-initialized); only a normally returning
callback gets the previous tenant re-initialized. -/
theorem central_restores_only_on_success {α : Type} (s : TenancyContext) (p : Tenant)
    (cb : Option Tenant → Except PyErr α)
    (hs : s.tenant = some p) (hin : s.initialized = true)
    (hb : ∀ b ∈ s.bootstrappers, ∀ u, b.bootstrapOk u = true) :
    (∀ e, cb (some p) = .error e →
        (s.central cb).result = .error e ∧ (s.central cb).state.tenant = none ∧
        (s.central cb).state.initialized = false) ∧
    (∀ v, cb (some p) = .ok v →
        (s.central cb).result = .ok v ∧ (s.central cb).state.tenant = some p ∧
        (s.central cb).state.initialized = true) := by
  have hE : s.endTenancy.state = ⟨s.bootstrappers, none, false, []⟩ := by
    simp [TenancyContext.endTenancy, hin]
  constructor
  · intro e he
    refine ⟨?_, ?_, ?_⟩ <;> simp [TenancyContext.central, hs, he, hE]
  · intro v hv
    have hinit :=
      initialize_fresh_ok ⟨s.bootstrappers, none, false, []⟩ p rfl (fun b h => hb b h p)
    refine ⟨?_, ?_, ?_⟩ <;> simp [TenancyContext.central, hs, hv, hE, hinit]

/-- Witness for C10: Active for Acme, callback raises; the failure
propagates and the context is left with no tenant. -/
theorem central_restores_only_on_success_witness :
    (TenancyContext.mk demoChain (some tAcme) true demoChain).tenant = some tAcme ∧
    (TenancyContext.mk demoChain (some tAcme) true demoChain).initialized = true ∧
    (∀ b ∈ (TenancyContext.mk demoChain (some tAcme) true demoChain).bootstrappers,
        ∀ u, b.bootstrapOk u = true) ∧
    (((TenancyContext.mk demoChain (some tAcme) true demoChain).central
         (fun _ => (.error (.callbackFailure "boom") : Except PyErr Nat))).result =
        .error (.callbackFailure "boom") ∧
     ((TenancyContext.mk demoChain (some tAcme) true demoChain).central
         (fun _ => (.error (.callbackFailure "boom") : Except PyErr Nat))).state.tenant =
        none ∧
     ((TenancyContext.mk demoChain (some tAcme) true demoChain).central
         (fun _ => (.error (.callbackFailure "boom") : Except PyErr Nat))).state.initialized =
        false) :=
  ⟨rfl, rfl, by simp [demoChain, okBoot],
   (central_restores_only_on_success (TenancyContext.mk demoChain (some tAcme) true demoChain)
       tAcme (fun _ => (.error (.callbackFailure "boom") : Except PyErr Nat)) rfl rfl
       (by simp [demoChain, okBoot])).1
     (.callbackFailure "boom") rfl⟩

/-! ### RPC transport pending-call table (client.py) -/

/-- State of one pending call's result slot. -/
inductive FutureState where
  | waiting
  | done (r : Except String String)

/-- The `_pending` dict of `GatewayClient`: correlation id to future. -/
abbrev PendingTable := List (Nat × FutureState)

/-- The removal performed by `self._pending.pop(k, None)`. -/
def eraseKey (p : PendingTable) (k : Nat) : PendingTable :=
  p.filter (fun e => e.1 != k)

/-- An incoming frame as classified by `_read_loop`: unparseable JSON, a
message without a well-formed integer id, or a response carrying an
`error` or a `result` for a correlation id. -/
inductive Frame where
  | malformed
  | noId
  | response (id : Nat) (body : Except String String)

/-- One iteration of `GatewayClient._read_loop`: parse, extract the id,
pop the matching pending entry, and resolve it unless it was missing or
already done.  Returns the new table and the resolution delivered to a
waiting future, if any. -/
def readLoopStep (p : PendingTable) (f : Frame) :
    PendingTable × Option (Nat × Except String String) :=
  match f with
  | .malformed => (p, none)
  | .noId => (p, none)
  | .response i body =>
      match p.lookup i with
      | none => (p, none)
      | some .waiting => (eraseKey p i, some (i, body))
      | some (.done _) => (eraseKey p i, none)

/-- Failure raised by the timeout branch of `_request`. -/
inductive CallErr where
  | timeout (method : String)
deriving Repr, DecidableEq

/-- The `asyncio.TimeoutError` branch of `GatewayClient._request`: remove
the call's own pending entry and fail the call locally. -/
def requestTimeout (p : PendingTable) (reqId : Nat) (method : String) :
    PendingTable × CallErr :=
  (eraseKey p reqId, .timeout method)

theorem lookup_eraseKey_self (p : PendingTable) (k : Nat) :
    (eraseKey p k).lookup k = none := by
  induction p with
  | nil => rfl
  | cons hd tl ih =>
      obtain ⟨a, v⟩ := hd
      simp only [eraseKey] at ih ⊢
      by_cases h : a = k
      · have h1 : (a != k) = false := by simp [h]
        simp only [List.filter_cons, h1, Bool.false_eq_true, if_false]
        exact ih
      · have h1 : (a != k) = true := by simp [h]
        have h2 : (k == a) = false := by simp [Ne.symm h]
        simp only [List.filter_cons, h1, if_true, List.lookup, h2]
        exact ih

theorem lookup_eraseKey_ne (p : PendingTable) (k j : Nat) (h : j ≠ k) :
    (eraseKey p k).lookup j = p.lookup j := by
  induction p with
  | nil => rfl
  | cons hd tl ih =>
      obtain ⟨a, v⟩ := hd
      simp only [eraseKey] at ih ⊢
      by_cases hk : a = k
      · have h1 : (a != k) = false := by simp [hk]
        have h2 : (j == a) = false := by
          subst hk
          simp [h]
        simp only [List.filter_cons, h1, Bool.false_eq_true, if_false, List.lookup, h2]
        exact ih
      · have h1 : (a != k) = true := by simp [hk]
        by_cases hj : j = a
        · simp [List.filter_cons, h1, List.lookup, hj]
        · have h2 : (j == a) = false := by simp [hj]
          simp only [List.filter_cons, h1, if_true, List.lookup, h2]
          exact ih

/-- C4: a timed-out call removes exactly its own pending entry (other ids
keep their entries untouched) and fails locally with a timeout error; a
response frame for an id with no pending entry leaves the table unchanged
and resolves nothing; a response for an already-resolved entry resolves
nothing and leaves every other pending call untouched. -/
theorem timeout_and_late_response (p : PendingTable) (reqId i : Nat)
    (m : String) (body : Except String String) :
    ((requestTimeout p reqId m).1.lookup reqId = none ∧
     (∀ j, j ≠ reqId → (requestTimeout p reqId m).1.lookup j = p.lookup j) ∧
     (requestTimeout p reqId m).2 = .timeout m) ∧
    (p.lookup i = none → readLoopStep p (.response i body) = (p, none)) ∧
    (∀ r, p.lookup i = some (.done r) →
        (readLoopStep p (.response i body)).2 = none ∧
        ∀ j, j ≠ i → (readLoopStep p (.response i body)).1.lookup j = p.lookup j) := by
  refine ⟨⟨lookup_eraseKey_self p reqId,
      fun j hj => lookup_eraseKey_ne p reqId j hj, rfl⟩, ?_, ?_⟩
  · intro h
    simp [readLoopStep, h]
  · intro r h
    constructor
    · simp [readLoopStep, h]
    · intro j hj
      simp [readLoopStep, h, lookup_eraseKey_ne p i j hj]

/-- The pending table used by the C4 witness: id 1 still waiting, id 2
already resolved. -/
def demoPending : PendingTable := [(1, .waiting), (2, .done (.ok "r"))]

/-- Witness for C4: call 1 times out without touching call 2; a frame for
unknown id 3 is dropped with the table unchanged; a duplicate frame for
resolved id 2 resolves nothing and leaves call 1's entry untouched. -/
theorem timeout_and_late_response_witness :
    ((requestTimeout demoPending 1 "config.get").1.lookup 1 = none ∧
     (requestTimeout demoPending 1 "config.get").1.lookup 2 = demoPending.lookup 2 ∧
     (requestTimeout demoPending 1 "config.get").2 = .timeout "config.get") ∧
    (demoPending.lookup 3 = none ∧
     readLoopStep demoPending (.response 3 (.ok "late")) = (demoPending, none)) ∧
    (demoPending.lookup 2 = some (.done (.ok "r")) ∧
     (readLoopStep demoPending (.response 2 (.ok "dup"))).2 = none ∧
     (readLoopStep demoPending (.response 2 (.ok "dup"))).1.lookup 1 =
       demoPending.lookup 1) :=
  ⟨⟨(timeout_and_late_response demoPending 1 3 "config.get" (.ok "late")).1.1,
    (timeout_and_late_response demoPending 1 3 "config.get" (.ok "late")).1.2.1 2
      (by decide),
    (timeout_and_late_response demoPending 1 3 "config.get" (.ok "late")).1.2.2⟩,
   ⟨rfl,
    (timeout_and_late_response demoPending 1 3 "config.get" (.ok "late")).2.1 rfl⟩,
   ⟨rfl,
    ((timeout_and_late_response demoPending 1 2 "config.get" (.ok "dup")).2.2
        (.ok "r") rfl).1,
    ((timeout_and_late_response demoPending 1 2 "config.get" (.ok "dup")).2.2
        (.ok "r") rfl).2 1 (by decide)⟩⟩

/-! ### Provisioner CAS registry mutations (provisioner.py) -/

/-- One entry of the registry list `config["agents"]["list"]`: its
`"id"` key when present (`a.get("id")`) and the rest of the dict,
opaque. -/
structure AgentEntry where
  id? : Option String
  payload : String
deriving Repr, DecidableEq

/-- The `config["agents"]` section: the registry list (with the
`.get("list", [])` default applied) and the section's other keys,
preserved verbatim by the `{**agents, ...}` spread. -/
structure AgentsSection where
  list : List AgentEntry
  extra : List (String × String)
deriving Repr, DecidableEq

/-- The configuration document; the field is `config.get("agents", {})`
before the default is applied. -/
structure OpenClawConfig where
  agents? : Option AgentsSection
deriving Repr, DecidableEq

/-- `OpenClawConfigSnapshot` (models.py): document plus version token. -/
structure OpenClawConfigSnapshot where
  config : OpenClawConfig
  hash : String
deriving Repr, DecidableEq

/-- `OpenClawAgentConfig` as relevant here: its `id` plus the rest of
`model_dump(exclude_none=True)`, opaque. -/
structure OpenClawAgentConfig where
  id : String
  payload : String
deriving Repr, DecidableEq

/-- `agent_config.model_dump(exclude_none=True)` as a registry entry: the
dump carries the agent's id under the `"id"` key. -/
def OpenClawAgentConfig.toEntry (c : OpenClawAgentConfig) : AgentEntry :=
  ⟨some c.id, c.payload⟩

/-- A gateway RPC issued by the provisioner. -/
inductive GatewayCall where
  | configGet
  | configPatch (agents : AgentsSection) (baseHash : String)
deriving Repr, DecidableEq

/-- Client-side precondition failures of the registry mutations. -/
inductive ProvisionErr where
  | duplicateAgent (id : String)
deriving Repr, DecidableEq

/-- `TenantProvisioner._add_agent_to_config`, applied to the snapshot the
initial `config.get` returned; also returns the RPC calls issued. -/
def addAgentToConfig (snapshot : OpenClawConfigSnapshot)
    (agentConfig : OpenClawAgentConfig) :
    Except ProvisionErr Unit × List GatewayCall :=
  let agents := snapshot.config.agents?.getD ⟨[], []⟩
  let agentList := agents.list
  if agentList.any (fun a => a.id? == some agentConfig.id) then
    (.error (.duplicateAgent agentConfig.id), [.configGet])
  else
    (.ok (),
     [.configGet,
      .configPatch { agents with list := agentList ++ [agentConfig.toEntry] }
        snapshot.hash])

/-- `TenantProvisioner._remove_agent_from_config`: filter the registry by
id; if nothing was removed, return success without issuing the patch. -/
def removeAgentFromConfig (snapshot : OpenClawConfigSnapshot) (agentId : String) :
    Except ProvisionErr Unit × List GatewayCall :=
  let agents := snapshot.config.agents?.getD ⟨[], []⟩
  let agentList := agents.list
  let filtered := agentList.filter (fun a => a.id? != some agentId)
  if filtered.length = agentList.length then
    (.ok (), [.configGet])
  else
    (.ok (), [.configGet, .configPatch { agents with list := filtered } snapshot.hash])

/-- C6: removing an agent id absent from the registry list returns
success and issues only the initial `config.get` — no `config.patch`,
so the remote document is untouched. -/
theorem removeAgent_absent_is_noop (snapshot : OpenClawConfigSnapshot)
    (agentId : String)
    (h : ∀ a ∈ (snapshot.config.agents?.getD ⟨[], []⟩).list, a.id? ≠ some agentId) :
    removeAgentFromConfig snapshot agentId = (.ok (), [.configGet]) := by
  have hf : (snapshot.config.agents?.getD ⟨[], []⟩).list.filter
      (fun a => a.id? != some agentId) = (snapshot.config.agents?.getD ⟨[], []⟩).list :=
    List.filter_eq_self.mpr (fun a ha => by simpa using h a ha)
  simp [removeAgentFromConfig, hf]

/-- The snapshot used by the provisioner witnesses: one registry entry
with id `tenant-x`, one extra section key, version token `h1`. -/
def demoSnapshot : OpenClawConfigSnapshot :=
  ⟨⟨some ⟨[⟨some "tenant-x", "e1"⟩], [("version", "7")]⟩⟩, "h1"⟩

/-- Witness for C6: removing the absent id `tenant-acme`. -/
theorem removeAgent_absent_is_noop_witness :
    (∀ a ∈ (demoSnapshot.config.agents?.getD ⟨[], []⟩).list,
        a.id? ≠ some "tenant-acme") ∧
    removeAgentFromConfig demoSnapshot "tenant-acme" = (.ok (), [.configGet]) :=
  ⟨by decide, removeAgent_absent_is_noop demoSnapshot "tenant-acme" (by decide)⟩

/-- C7: adding an agent whose id already appears in the registry fails
with a duplicate-entry error before any mutation (only `config.get` is
issued); otherwise exactly one patch is issued whose registry list is the
snapshot's entries with the new entry appended, guarded by the
snapshot's version token. -/
theorem addAgent_duplicate_check (snapshot : OpenClawConfigSnapshot)
    (c : OpenClawAgentConfig) :
    ((∃ a ∈ (snapshot.config.agents?.getD ⟨[], []⟩).list, a.id? = some c.id) →
        addAgentToConfig snapshot c = (.error (.duplicateAgent c.id), [.configGet])) ∧
    ((∀ a ∈ (snapshot.config.agents?.getD ⟨[], []⟩).list, a.id? ≠ some c.id) →
        addAgentToConfig snapshot c =
          (.ok (),
           [.configGet,
            .configPatch
              { snapshot.config.agents?.getD ⟨[], []⟩ with
                list := (snapshot.config.agents?.getD ⟨[], []⟩).list ++ [c.toEntry] }
              snapshot.hash])) := by
  constructor
  · intro h
    have hdup : (snapshot.config.agents?.getD ⟨[], []⟩).list.any
        (fun a => a.id? == some c.id) = true := by
      rcases h with ⟨a, ha, hid⟩
      exact List.any_eq_true.mpr ⟨a, ha, by simp [hid]⟩
    simp [addAgentToConfig, hdup]
  · intro h
    have hdup : (snapshot.config.agents?.getD ⟨[], []⟩).list.any
        (fun a => a.id? == some c.id) = false := by
      rw [Bool.eq_false_iff]
      intro hc
      rcases List.any_eq_true.mp hc with ⟨a, ha, hid⟩
      exact h a ha (by simpa using hid)
    simp [addAgentToConfig, hdup]

/-- Witness for C7: adding id `tenant-x` (present) fails without a patch;
adding id `tenant-acme` (absent) issues the guarded append patch. -/
theorem addAgent_duplicate_check_witness :
    (∃ a ∈ (demoSnapshot.config.agents?.getD ⟨[], []⟩).list,
        a.id? = some (OpenClawAgentConfig.mk "tenant-x" "p1").id) ∧
    addAgentToConfig demoSnapshot ⟨"tenant-x", "p1"⟩ =
      (.error (.duplicateAgent "tenant-x"), [.configGet]) ∧
    (∀ a ∈ (demoSnapshot.config.agents?.getD ⟨[], []⟩).list,
        a.id? ≠ some (OpenClawAgentConfig.mk "tenant-acme" "p2").id) ∧
    addAgentToConfig demoSnapshot ⟨"tenant-acme", "p2"⟩ =
      (.ok (),
       [.configGet,
        .configPatch
          { demoSnapshot.config.agents?.getD ⟨[], []⟩ with
            list := (demoSnapshot.config.agents?.getD ⟨[], []⟩).list ++
              [(OpenClawAgentConfig.mk "tenant-acme" "p2").toEntry] }
          demoSnapshot.hash]) :=
  ⟨by decide,
   (addAgent_duplicate_check demoSnapshot ⟨"tenant-x", "p1"⟩).1 (by decide),
   by decide,
   (addAgent_duplicate_check demoSnapshot ⟨"tenant-acme", "p2"⟩).2 (by decide)⟩
